import Mathlib

/-!
Verification of the asynchronous orchestration layer of the metmuseum-mcp
repository: the client-side search/hydration controller
(src/ui/met-explorer/mcp-app.ts), the shared rate limiter
(src/utils/RateLimiter.ts), the results context publisher
(src/ui/met-explorer/context-sync.ts) and the API client error
classification (src/api/MetMuseumApiClient.ts).

Every definition is a shallow embedding of the corresponding TypeScript
function; asynchronous interleavings are modelled as explicit event lists
or completion orders, and the nondeterminism of the event loop (clock
readings, completion order) is quantified over in the theorems.
-/

namespace MetMuseum

/- ============================================================= -/
/- Object hydration: hydrateObjects and runWithConcurrency        -/
/- (src/ui/met-explorer/mcp-app.ts, lines 383 to 447)             -/
/- ============================================================= -/

/-- A result card as built by the hydration worker in hydrateObjects
(objectID, title, artistDisplayName, department, primaryImageSmall). -/
structure ResultCard where
  objectID : Nat
  title : String
  artistDisplayName : String
  department : String
  primaryImageSmall : String
deriving DecidableEq, Repr

/-- Outcome of one per-item worker body in hydrateObjects.  The worker
either observes a stale token and returns before fetching (staleSkip),
or its callTool call throws (failed, caught and counted), or the call
succeeds but parseObjectResult yields no object (noObject, slot left
empty), or the call succeeds and the parsed object is mapped to a card
(fetched). -/
inductive FetchOutcome where
  | fetched (card : ResultCard)
  | noObject
  | failed
  | staleSkip
deriving DecidableEq, Repr

/-- The HydrationResult record returned by hydrateObjects. -/
structure HydrationResult where
  cards : List ResultCard
  failedCount : Nat
deriving DecidableEq, Repr

/-- Effect of one worker body on the shared (ordered, failedCount)
accumulator, at slot index i: a fetched card is written into the slot at
the original index of the item; a thrown fetch increments failedCount;
the other two outcomes leave both untouched. -/
def applyFetch (ordered : List (Option ResultCard)) (failedCount : Nat)
    (i : Nat) : FetchOutcome → List (Option ResultCard) × Nat
  | .fetched card => (ordered.set i (some card), failedCount)
  | .noObject => (ordered, failedCount)
  | .failed => (ordered, failedCount + 1)
  | .staleSkip => (ordered, failedCount)

/-- One completed worker task in hydrateObjects, identified by the input
index it claimed from the queue. -/
def hydrateStep (objectIds : List Nat) (outcome : Nat → FetchOutcome)
    (acc : List (Option ResultCard) × Nat) (i : Nat) :
    List (Option ResultCard) × Nat :=
  match objectIds[i]? with
  | some oid => applyFetch acc.1 acc.2 i (outcome oid)
  | none => acc

/-- hydrateObjects: allocate a slot array of length N, run the per-item
workers (runWithConcurrency has each index claimed exactly once; the
order list is the order in which the worker bodies complete), then
compact the slot array by dropping empty slots and pair it with the
shared failure counter.  outcome records, per object identifier, how
the worker body for that item ran in this execution. -/
def hydrateObjects (objectIds : List Nat) (outcome : Nat → FetchOutcome)
    (order : List Nat) : HydrationResult :=
  let init : List (Option ResultCard) := List.replicate objectIds.length none
  let run := order.foldl (hydrateStep objectIds outcome) (init, 0)
  { cards := run.1.filterMap id, failedCount := run.2 }

/-- The card a successful fetch of identifier oid contributes, if any. -/
def cardOf (outcome : Nat → FetchOutcome) (oid : Nat) : Option ResultCard :=
  match outcome oid with
  | .fetched card => some card
  | _ => none

/-- The content the slot at index j should hold once the task for index
j has completed. -/
def slotValue (objectIds : List Nat) (outcome : Nat → FetchOutcome)
    (j : Nat) : Option ResultCard :=
  (objectIds[j]?).bind (cardOf outcome)

/-- Whether the task at input index i counts as a failed fetch. -/
def failedAt (objectIds : List Nat) (outcome : Nat → FetchOutcome)
    (i : Nat) : Bool :=
  match objectIds[i]? with
  | some oid => decide (outcome oid = FetchOutcome.failed)
  | none => false

theorem hydrateStep_fst_length (objectIds : List Nat)
    (outcome : Nat → FetchOutcome) (acc : List (Option ResultCard) × Nat)
    (i : Nat) :
    ((hydrateStep objectIds outcome acc i).1).length = acc.1.length := by
  cases h : objectIds[i]? with
  | none => simp [hydrateStep, h]
  | some oid =>
    cases ho : outcome oid <;> simp [hydrateStep, h, ho, applyFetch]

theorem hydrateStep_fst_getElem_other (objectIds : List Nat)
    (outcome : Nat → FetchOutcome) (acc : List (Option ResultCard) × Nat)
    (i j : Nat) (hij : i ≠ j) :
    ((hydrateStep objectIds outcome acc i).1)[j]? = acc.1[j]? := by
  cases h : objectIds[i]? with
  | none => simp [hydrateStep, h]
  | some oid =>
    cases ho : outcome oid <;>
      simp [hydrateStep, h, ho, applyFetch, List.getElem?_set_ne hij]

theorem hydrateStep_snd (objectIds : List Nat)
    (outcome : Nat → FetchOutcome) (acc : List (Option ResultCard) × Nat)
    (i : Nat) :
    (hydrateStep objectIds outcome acc i).2 =
      acc.2 + (if failedAt objectIds outcome i then 1 else 0) := by
  cases h : objectIds[i]? with
  | none => simp [hydrateStep, h, failedAt]
  | some oid =>
    cases ho : outcome oid <;>
      simp [hydrateStep, h, ho, applyFetch, failedAt]

/-- Pointwise characterisation of the slot array after a set of
completed tasks: a slot whose task completed with a successful fetch
holds that card; every other slot keeps its previous content. -/
theorem hydrateFold_fst_getElem (objectIds : List Nat)
    (outcome : Nat → FetchOutcome) (order : List Nat)
    (acc : List (Option ResultCard) × Nat)
    (hlen : acc.1.length = objectIds.length) (j : Nat) :
    ((order.foldl (hydrateStep objectIds outcome) acc).1)[j]? =
      if j ∈ order ∧ slotValue objectIds outcome j ≠ none then
        some (slotValue objectIds outcome j)
      else acc.1[j]? := by
  induction order generalizing acc with
  | nil => simp
  | cons i rest ih =>
    rw [List.foldl_cons,
      ih (hydrateStep objectIds outcome acc i)
        ((hydrateStep_fst_length objectIds outcome acc i).trans hlen)]
    by_cases hrest : j ∈ rest ∧ slotValue objectIds outcome j ≠ none
    · rw [if_pos hrest, if_pos ⟨List.mem_cons_of_mem i hrest.1, hrest.2⟩]
    · rw [if_neg hrest]
      by_cases hij : i = j
      · subst hij
        by_cases hsv : slotValue objectIds outcome i ≠ none
        · rw [if_pos ⟨List.mem_cons_self i rest, hsv⟩]
          -- the head task wrote the successful card into slot i
          obtain ⟨oid, hoid⟩ : ∃ oid, objectIds[i]? = some oid := by
            cases h : objectIds[i]? with
            | none => exact absurd (by simp [slotValue, h]) hsv
            | some oid => exact ⟨oid, rfl⟩
          obtain ⟨card, hcard⟩ : ∃ card, outcome oid = .fetched card := by
            cases h : outcome oid with
            | fetched card => exact ⟨card, rfl⟩
            | noObject => exact absurd (by simp [slotValue, hoid, cardOf, h]) hsv
            | failed => exact absurd (by simp [slotValue, hoid, cardOf, h]) hsv
            | staleSkip => exact absurd (by simp [slotValue, hoid, cardOf, h]) hsv
          have hi : i < acc.1.length := by
            rw [hlen]
            by_contra hge
            push_neg at hge
            rw [List.getElem?_eq_none hge] at hoid
            exact Option.noConfusion hoid
          simp [hydrateStep, hoid, hcard, applyFetch,
            List.getElem?_set_self hi, slotValue, cardOf]
        · push_neg at hsv
          rw [if_neg (by intro h; exact h.2 hsv)]
          cases h : objectIds[i]? with
          | none => simp [hydrateStep, h]
          | some oid =>
            cases hout : outcome oid with
            | fetched card =>
              exfalso
              rw [slotValue, h] at hsv
              simp [cardOf, hout] at hsv
            | noObject => simp [hydrateStep, h, hout, applyFetch]
            | failed => simp [hydrateStep, h, hout, applyFetch]
            | staleSkip => simp [hydrateStep, h, hout, applyFetch]
      · rw [hydrateStep_fst_getElem_other objectIds outcome acc i j hij]
        rw [if_neg (by
          intro h
          rcases List.mem_cons.1 h.1 with h1 | h1
          · exact hij h1.symm
          · exact hrest ⟨h1, h.2⟩)]

/-- After a complete run (every input index claimed exactly once, in any
completion order), the slot array is the input-order image of the
per-item fetch results. -/
theorem hydrate_slots (objectIds : List Nat) (outcome : Nat → FetchOutcome)
    (order : List Nat) (horder : List.Perm order (List.range objectIds.length)) :
    (order.foldl (hydrateStep objectIds outcome)
      (List.replicate objectIds.length none, 0)).1
      = objectIds.map (cardOf outcome) := by
  apply List.ext_getElem?
  intro j
  rw [hydrateFold_fst_getElem objectIds outcome order
    (List.replicate objectIds.length none, 0) (by simp) j]
  have hmem : j ∈ order ↔ j < objectIds.length := by
    rw [horder.mem_iff, List.mem_range]
  by_cases hj : j < objectIds.length
  · have hjget : objectIds[j]? = some (objectIds[j]) := List.getElem?_eq_getElem hj
    have hsv : slotValue objectIds outcome j = cardOf outcome (objectIds[j]) := by
      rw [slotValue, hjget, Option.some_bind]
    by_cases hc : slotValue objectIds outcome j ≠ none
    · rw [if_pos ⟨hmem.2 hj, hc⟩, List.getElem?_map, hjget, hsv]
      simp
    · push_neg at hc
      have hnone : cardOf outcome (objectIds[j]) = none := hsv.symm.trans hc
      rw [if_neg (by intro h; exact h.2 hc), List.getElem?_map, hjget]
      simp [List.getElem?_replicate_of_lt hj, hnone]
  · rw [if_neg (by intro h; exact hj (hmem.1 h.1))]
    push_neg at hj
    rw [List.getElem?_eq_none (by simpa using hj),
      List.getElem?_eq_none (by simpa using hj)]

theorem hydrateFold_snd (objectIds : List Nat) (outcome : Nat → FetchOutcome)
    (order : List Nat) (acc : List (Option ResultCard) × Nat) :
    (order.foldl (hydrateStep objectIds outcome) acc).2 =
      acc.2 + order.countP (failedAt objectIds outcome) := by
  induction order generalizing acc with
  | nil => simp
  | cons i rest ih =>
    rw [List.foldl_cons, ih, List.countP_cons, hydrateStep_snd]
    omega

/-- Counting a property through index lookup over the full index range
is counting it over the list itself. -/
theorem countP_lookup_range (l : List Nat) (q : Nat → Bool) :
    (List.range l.length).countP
      (fun j => match l[j]? with | some a => q a | none => false)
      = l.countP q := by
  induction l with
  | nil => simp
  | cons a t ih =>
    rw [List.length_cons, List.range_succ_eq_map, List.countP_cons,
      List.countP_map]
    have hs : ((fun (j : Nat) =>
        match (a :: t)[j]? with | some x => q x | none => false) ∘ Nat.succ)
        = (fun (j : Nat) => match t[j]? with | some x => q x | none => false) := by
      funext j
      simp [Function.comp, List.getElem?_cons_succ]
    rw [hs, ih, List.countP_cons]
    simp [List.getElem?_cons_zero]

theorem hydrate_cards (objectIds : List Nat) (outcome : Nat → FetchOutcome)
    (order : List Nat) (horder : List.Perm order (List.range objectIds.length)) :
    (hydrateObjects objectIds outcome order).cards
      = objectIds.filterMap (cardOf outcome) := by
  show ((order.foldl (hydrateStep objectIds outcome)
      (List.replicate objectIds.length none, 0)).1.filterMap id)
    = objectIds.filterMap (cardOf outcome)
  rw [hydrate_slots objectIds outcome order horder, List.filterMap_map]
  rfl

theorem hydrate_failedCount (objectIds : List Nat)
    (outcome : Nat → FetchOutcome) (order : List Nat)
    (horder : List.Perm order (List.range objectIds.length)) :
    (hydrateObjects objectIds outcome order).failedCount
      = objectIds.countP (fun oid => decide (outcome oid = FetchOutcome.failed)) := by
  show (order.foldl (hydrateStep objectIds outcome)
      (List.replicate objectIds.length none, 0)).2
    = objectIds.countP (fun oid => decide (outcome oid = FetchOutcome.failed))
  rw [hydrateFold_snd, Nat.zero_add, horder.countP_eq]
  exact countP_lookup_range objectIds
    (fun oid => decide (outcome oid = FetchOutcome.failed))

/-- When every item either fetches a card or throws, the successes and
the failures partition the input. -/
theorem filterMap_cardOf_length_add_failed (objectIds : List Nat)
    (outcome : Nat → FetchOutcome)
    (hdich : ∀ oid ∈ objectIds, outcome oid ≠ FetchOutcome.noObject
      ∧ outcome oid ≠ FetchOutcome.staleSkip) :
    (objectIds.filterMap (cardOf outcome)).length
      + objectIds.countP (fun oid => decide (outcome oid = FetchOutcome.failed))
      = objectIds.length := by
  induction objectIds with
  | nil => simp
  | cons a t ih =>
    have ha := hdich a (List.mem_cons_self a t)
    have ht : ∀ oid ∈ t, outcome oid ≠ FetchOutcome.noObject
        ∧ outcome oid ≠ FetchOutcome.staleSkip :=
      fun oid hm => hdich oid (List.mem_cons_of_mem a hm)
    have hih := ih ht
    cases hout : outcome a with
    | fetched card =>
      simp [List.filterMap_cons, List.countP_cons, cardOf, hout]
      omega
    | noObject => exact absurd hout ha.1
    | failed =>
      simp [List.filterMap_cons, List.countP_cons, cardOf, hout]
      omega
    | staleSkip => exact absurd hout ha.2

/-- The successes and the failures together never exceed the input
size (items that parse to no object or are skipped as stale count in
neither). -/
theorem filterMap_cardOf_length_add_failed_le (objectIds : List Nat)
    (outcome : Nat → FetchOutcome) :
    (objectIds.filterMap (cardOf outcome)).length
      + objectIds.countP (fun oid => decide (outcome oid = FetchOutcome.failed))
      ≤ objectIds.length := by
  induction objectIds with
  | nil => simp
  | cons a t ih =>
    cases hout : outcome a with
    | fetched card =>
      simp [List.filterMap_cons, List.countP_cons, cardOf, hout]
      omega
    | noObject =>
      simp [List.filterMap_cons, List.countP_cons, cardOf, hout]
      omega
    | failed =>
      simp [List.filterMap_cons, List.countP_cons, cardOf, hout]
      omega
    | staleSkip =>
      simp [List.filterMap_cons, List.countP_cons, cardOf, hout]
      omega

/-- C3: Hydration order preservation.  For every identifier list and
every completion-order permutation of the per-item fetches, the cards
of the HydrationResult are exactly the subsequence of the input list
whose fetches succeeded, in the original input order; completion order
never influences the output. -/
theorem claim_C3_hydration_order_preservation
    (objectIds : List Nat) (outcome : Nat → FetchOutcome) (order : List Nat)
    (horder : List.Perm order (List.range objectIds.length)) :
    (hydrateObjects objectIds outcome order).cards
      = objectIds.filterMap (cardOf outcome) :=
  hydrate_cards objectIds outcome order horder

/-- Witness for C3, on the spec example: input [5, 3, 9] where the fetch
of 3 fails and 9 finishes before 5 (completion order [9, 5, 3] given by
indices [2, 0, 1]); the output is [card 5, card 9]. -/
theorem claim_C3_hydration_order_preservation_witness :
    List.Perm [2, 0, 1] (List.range 3) ∧
    (hydrateObjects [5, 3, 9]
      (fun oid => if oid = 3 then FetchOutcome.failed
        else FetchOutcome.fetched ⟨oid, "", "", "", ""⟩) [2, 0, 1]).cards
      = [⟨5, "", "", "", ""⟩, ⟨9, "", "", "", ""⟩] :=
  ⟨by decide, by
    rw [claim_C3_hydration_order_preservation [5, 3, 9]
      (fun oid => if oid = 3 then FetchOutcome.failed
        else FetchOutcome.fetched ⟨oid, "", "", "", ""⟩) [2, 0, 1] (by decide)]
    rfl⟩

/-- C5: Partial-failure tolerance.  Hydrating [1, 2, 3] where exactly
one per-item fetch throws (and the other two fetch cards) yields two
cards and failedCount one, for every completion order; hydrateObjects
is a total function, so no per-item failure is ever propagated as a
thrown error. -/
theorem claim_C5_partial_failure_tolerance
    (outcome : Nat → FetchOutcome) (order : List Nat)
    (horder : List.Perm order (List.range 3))
    (hdich : ∀ oid ∈ ([1, 2, 3] : List Nat),
      outcome oid ≠ FetchOutcome.noObject ∧ outcome oid ≠ FetchOutcome.staleSkip)
    (hone : List.countP (fun oid => decide (outcome oid = FetchOutcome.failed))
      [1, 2, 3] = 1) :
    (hydrateObjects [1, 2, 3] outcome order).cards.length = 2 ∧
    (hydrateObjects [1, 2, 3] outcome order).failedCount = 1 := by
  have hc := hydrate_cards [1, 2, 3] outcome order horder
  have hf := hydrate_failedCount [1, 2, 3] outcome order horder
  have hsum := filterMap_cardOf_length_add_failed [1, 2, 3] outcome hdich
  rw [hone] at hsum
  simp only [List.length_cons, List.length_nil] at hsum
  constructor
  · rw [hc]
    omega
  · rw [hf, hone]

/-- Witness for C5: the fetch of identifier 2 throws, the other two
succeed. -/
theorem claim_C5_partial_failure_tolerance_witness :
    (hydrateObjects [1, 2, 3]
      (fun oid => if oid = 2 then FetchOutcome.failed
        else FetchOutcome.fetched ⟨oid, "", "", "", ""⟩) [0, 1, 2]).cards.length = 2 ∧
    (hydrateObjects [1, 2, 3]
      (fun oid => if oid = 2 then FetchOutcome.failed
        else FetchOutcome.fetched ⟨oid, "", "", "", ""⟩) [0, 1, 2]).failedCount = 1 :=
  claim_C5_partial_failure_tolerance
    (fun oid => if oid = 2 then FetchOutcome.failed
      else FetchOutcome.fetched ⟨oid, "", "", "", ""⟩)
    [0, 1, 2] (by decide) (by decide) (by decide)

/-- C10: Hydration accounting bound.  For every run, cards.length plus
failedCount is at most the number of identifiers; failedCount counts
exactly the per-item fetches that threw (not items that parsed to no
object or were skipped on a stale token); and the inequality can be
strict, witnessed by a single item whose tool call succeeds but parses
to no object: it is omitted from cards without incrementing
failedCount. -/
theorem claim_C10_hydration_accounting
    (objectIds : List Nat) (outcome : Nat → FetchOutcome) (order : List Nat)
    (horder : List.Perm order (List.range objectIds.length)) :
    ((hydrateObjects objectIds outcome order).cards.length
        + (hydrateObjects objectIds outcome order).failedCount
        ≤ objectIds.length)
      ∧ (hydrateObjects objectIds outcome order).failedCount
        = objectIds.countP (fun oid => decide (outcome oid = FetchOutcome.failed))
      ∧ ((hydrateObjects [7] (fun _ => FetchOutcome.noObject) [0]).cards.length
          + (hydrateObjects [7] (fun _ => FetchOutcome.noObject) [0]).failedCount
          = 0) := by
  refine ⟨?_, hydrate_failedCount objectIds outcome order horder, by decide⟩
  rw [hydrate_cards objectIds outcome order horder,
    hydrate_failedCount objectIds outcome order horder]
  exact filterMap_cardOf_length_add_failed_le objectIds outcome

/-- Witness for C10: two items, one skipped as stale and one thrown;
the bound holds (and is strict: zero cards plus one failure on two
items). -/
theorem claim_C10_hydration_accounting_witness :
    List.Perm [1, 0] (List.range 2) ∧
    ((hydrateObjects [4, 6]
        (fun oid => if oid = 4 then FetchOutcome.staleSkip else FetchOutcome.failed)
        [1, 0]).cards.length
      + (hydrateObjects [4, 6]
        (fun oid => if oid = 4 then FetchOutcome.staleSkip else FetchOutcome.failed)
        [1, 0]).failedCount
      ≤ 2) :=
  ⟨by decide,
    (claim_C10_hydration_accounting [4, 6]
      (fun oid => if oid = 4 then FetchOutcome.staleSkip else FetchOutcome.failed)
      [1, 0] (by decide)).1⟩

/- ============================================================= -/
/- The rate limiter (src/utils/RateLimiter.ts)                    -/
/- ============================================================= -/

/-- The mutable fields of the RateLimiter class.  Times are clock
readings in milliseconds (Date.now()). -/
structure RateLimiter where
  requestsThisSecond : Nat
  lastRequestTime : Nat
  maxRequestsPerSecond : Nat
deriving DecidableEq, Repr

/-- First half of waitIfNeeded: reset the counter if the current clock
reading is at least one second past lastRequestTime. -/
def resetIfNewWindow (s : RateLimiter) (now : Nat) : RateLimiter :=
  if 1000 ≤ now - s.lastRequestTime then
    ⟨0, now, s.maxRequestsPerSecond⟩
  else s

/-- Body of one serialized acquisition (RateLimiter.waitIfNeeded).
now is the clock reading on entry.  If the counter has hit the ceiling,
the caller sleeps until the window ends; afterWait is the clock reading
after that sleep (the Date.now() taken when execution resumes), the
counter is reset and then incremented.  Otherwise the counter is
incremented immediately.  The second component is the time at which the
acquisition completes. -/
def waitIfNeeded (s : RateLimiter) (now afterWait : Nat) : RateLimiter × Nat :=
  let s1 := resetIfNewWindow s now
  if s1.maxRequestsPerSecond ≤ s1.requestsThisSecond then
    (⟨1, afterWait, s1.maxRequestsPerSecond⟩, afterWait)
  else
    (⟨s1.requestsThisSecond + 1, s1.lastRequestTime, s1.maxRequestsPerSecond⟩, now)

/-- One completed acquisition: the time at which it completed and the
value of lastRequestTime right after it (the start of the fixed window
it was counted in). -/
structure AcqEntry where
  completedAt : Nat
  windowStart : Nat
deriving DecidableEq, Repr

/-- A run of the limiter over a list of acquisitions.  acquireSlot
chains every caller onto the pending promise, so the waitIfNeeded
bodies execute strictly one after another; the run is therefore a fold
over the call list.  Each call supplies its two clock readings
(on entry, and after the sleep when one happens). -/
def runRateLimiter (s : RateLimiter) : List (Nat × Nat) → RateLimiter × List AcqEntry
  | [] => (s, [])
  | c :: rest =>
    ((runRateLimiter (waitIfNeeded s c.1 c.2).1 rest).1,
      ⟨(waitIfNeeded s c.1 c.2).2, (waitIfNeeded s c.1 c.2).1.lastRequestTime⟩
        :: (runRateLimiter (waitIfNeeded s c.1 c.2).1 rest).2)

/-- Sanity of a schedule of clock readings: the clock never runs
backwards across the serialized acquisitions, and a sleep of
timeToWait = 1000 - (now - lastRequestTime) milliseconds resumes no
earlier than lastRequestTime + 1000. -/
def validFrom : RateLimiter → List (Nat × Nat) → Bool
  | _, [] => true
  | s, c :: rest =>
    (decide (s.lastRequestTime ≤ c.1)
      && (decide ((resetIfNewWindow s c.1).requestsThisSecond
            < (resetIfNewWindow s c.1).maxRequestsPerSecond)
          || decide ((resetIfNewWindow s c.1).lastRequestTime + 1000 ≤ c.2)))
    && validFrom (waitIfNeeded s c.1 c.2).1 rest

/-- The singleton limiter the repository exports for the Met Museum
API: new RateLimiter(80), with requestsThisSecond = 0 and
lastRequestTime initialised to the construction-time clock reading. -/
def metMuseumRateLimiter (constructedAt : Nat) : RateLimiter :=
  ⟨0, constructedAt, 80⟩

theorem resetIfNewWindow_of_new {s : RateLimiter} {now : Nat}
    (h : 1000 ≤ now - s.lastRequestTime) :
    resetIfNewWindow s now = ⟨0, now, s.maxRequestsPerSecond⟩ := by
  simp [resetIfNewWindow, h]

theorem resetIfNewWindow_of_same {s : RateLimiter} {now : Nat}
    (h : ¬ 1000 ≤ now - s.lastRequestTime) :
    resetIfNewWindow s now = s := by
  simp [resetIfNewWindow, h]

theorem waitIfNeeded_of_reset {s : RateLimiter} {now : Nat} (now2 : Nat)
    (hr : 1000 ≤ now - s.lastRequestTime) (hmax : 1 ≤ s.maxRequestsPerSecond) :
    waitIfNeeded s now now2 = (⟨1, now, s.maxRequestsPerSecond⟩, now) := by
  simp only [waitIfNeeded, resetIfNewWindow_of_new hr]
  split
  · next h =>
    exfalso
    have h2 : s.maxRequestsPerSecond ≤ 0 := h
    omega
  · rfl

theorem waitIfNeeded_of_wait {s : RateLimiter} {now : Nat} (now2 : Nat)
    (hnr : ¬ 1000 ≤ now - s.lastRequestTime)
    (hw : s.maxRequestsPerSecond ≤ s.requestsThisSecond) :
    waitIfNeeded s now now2 = (⟨1, now2, s.maxRequestsPerSecond⟩, now2) := by
  simp only [waitIfNeeded, resetIfNewWindow_of_same hnr]
  split
  · rfl
  · next h => exact absurd hw h

theorem waitIfNeeded_of_free {s : RateLimiter} {now : Nat} (now2 : Nat)
    (hnr : ¬ 1000 ≤ now - s.lastRequestTime)
    (hnw : ¬ s.maxRequestsPerSecond ≤ s.requestsThisSecond) :
    waitIfNeeded s now now2 =
      (⟨s.requestsThisSecond + 1, s.lastRequestTime, s.maxRequestsPerSecond⟩, now) := by
  simp only [waitIfNeeded, resetIfNewWindow_of_same hnr]
  split
  · next h => exact absurd h hnw
  · rfl

/-- Every run preserves the ceiling, keeps the counter at or below the
ceiling, and completes exactly one acquisition per call. -/
theorem runRateLimiter_invariant (calls : List (Nat × Nat)) :
    ∀ s : RateLimiter, 1 ≤ s.maxRequestsPerSecond →
      s.requestsThisSecond ≤ s.maxRequestsPerSecond →
      (runRateLimiter s calls).1.maxRequestsPerSecond = s.maxRequestsPerSecond
      ∧ (runRateLimiter s calls).1.requestsThisSecond ≤ s.maxRequestsPerSecond
      ∧ (runRateLimiter s calls).2.length = calls.length := by
  induction calls with
  | nil =>
    intro s h1 h2
    exact ⟨rfl, h2, rfl⟩
  | cons c rest ih =>
    intro s h1 h2
    obtain ⟨now, now2⟩ := c
    by_cases hr : 1000 ≤ now - s.lastRequestTime
    · have hwn := waitIfNeeded_of_reset now2 hr h1
      simp only [runRateLimiter, hwn]
      have hnext := ih ⟨1, now, s.maxRequestsPerSecond⟩ h1 h1
      exact ⟨hnext.1, hnext.2.1, by simp [hnext.2.2]⟩
    · by_cases hw : s.maxRequestsPerSecond ≤ s.requestsThisSecond
      · have hwn := waitIfNeeded_of_wait now2 hr hw
        simp only [runRateLimiter, hwn]
        have hnext := ih ⟨1, now2, s.maxRequestsPerSecond⟩ h1 h1
        exact ⟨hnext.1, hnext.2.1, by simp [hnext.2.2]⟩
      · have hwn := waitIfNeeded_of_free now2 hr hw
        simp only [runRateLimiter, hwn]
        have hnext := ih
          ⟨s.requestsThisSecond + 1, s.lastRequestTime, s.maxRequestsPerSecond⟩
          h1 (by simp; omega)
        exact ⟨hnext.1, hnext.2.1, by simp [hnext.2.2]⟩

/-- C2: Rate-limiter serialized check-and-increment.  The promise
chain in acquireSlot executes the waitIfNeeded bodies strictly one
after another, modelled as the sequential fold runRateLimiter, so the
check and the increment of requestsThisSecond are atomic with respect
to each other.  After any run of acquisitions (hence after every
completed acquisition, since every prefix of a run is a run), the
counter stays at or below maxRequestsPerSecond, and every acquisition
completes (there is exactly one completion entry per call: acquisition
can only delay, never fail). -/
theorem claim_C2_rate_limiter_serialized_bound (s : RateLimiter)
    (calls : List (Nat × Nat)) (hmax : 1 ≤ s.maxRequestsPerSecond)
    (hinit : s.requestsThisSecond ≤ s.maxRequestsPerSecond) :
    (runRateLimiter s calls).1.requestsThisSecond ≤ s.maxRequestsPerSecond
      ∧ (runRateLimiter s calls).2.length = calls.length :=
  ⟨(runRateLimiter_invariant calls s hmax hinit).2.1,
    (runRateLimiter_invariant calls s hmax hinit).2.2⟩

/-- Witness for C2 on the exported singleton (ceiling 80) and a burst
of three overlapping acquisitions. -/
theorem claim_C2_rate_limiter_serialized_bound_witness :
    (runRateLimiter (metMuseumRateLimiter 0) [(0, 0), (5, 5), (6, 6)]).1.requestsThisSecond
        ≤ (metMuseumRateLimiter 0).maxRequestsPerSecond
      ∧ (runRateLimiter (metMuseumRateLimiter 0) [(0, 0), (5, 5), (6, 6)]).2.length = 3 :=
  claim_C2_rate_limiter_serialized_bound (metMuseumRateLimiter 0)
    [(0, 0), (5, 5), (6, 6)] (by decide) (by decide)

theorem runRateLimiter_cons (s : RateLimiter) (now now2 : Nat)
    (rest : List (Nat × Nat)) :
    runRateLimiter s ((now, now2) :: rest) =
      ((runRateLimiter (waitIfNeeded s now now2).1 rest).1,
        ⟨(waitIfNeeded s now now2).2, (waitIfNeeded s now now2).1.lastRequestTime⟩
          :: (runRateLimiter (waitIfNeeded s now now2).1 rest).2) := rfl

theorem validFrom_cons (s : RateLimiter) (now now2 : Nat)
    (rest : List (Nat × Nat)) :
    validFrom s ((now, now2) :: rest) =
      ((decide (s.lastRequestTime ≤ now)
        && (decide ((resetIfNewWindow s now).requestsThisSecond
              < (resetIfNewWindow s now).maxRequestsPerSecond)
            || decide ((resetIfNewWindow s now).lastRequestTime + 1000 ≤ now2)))
      && validFrom (waitIfNeeded s now now2).1 rest) := rfl

/-- Per-window bound: on every sane schedule, the completions counted
into any single fixed window (identified by its start time) number at
most the ceiling, minus the count already consumed when the current
window is the one asked about; moreover window starts never precede
the current lastRequestTime. -/
theorem runRateLimiter_window_bound (calls : List (Nat × Nat)) :
    ∀ (s : RateLimiter) (w : Nat),
      1 ≤ s.maxRequestsPerSecond →
      s.requestsThisSecond ≤ s.maxRequestsPerSecond →
      validFrom s calls = true →
      ((runRateLimiter s calls).2.countP (fun e => decide (e.windowStart = w))
          ≤ (if w = s.lastRequestTime
              then s.maxRequestsPerSecond - s.requestsThisSecond
              else s.maxRequestsPerSecond))
        ∧ ∀ e ∈ (runRateLimiter s calls).2, s.lastRequestTime ≤ e.windowStart := by
  induction calls with
  | nil =>
    intro s w hmax hreq hv
    constructor
    · show (List.countP _ []) ≤ _
      rw [List.countP_nil]
      exact Nat.zero_le _
    · intro e he
      exact absurd he (List.not_mem_nil e)
  | cons c rest ih =>
    intro s w hmax hreq hv
    obtain ⟨now, now2⟩ := c
    rw [validFrom_cons] at hv
    simp only [Bool.and_eq_true, Bool.or_eq_true, decide_eq_true_eq] at hv
    obtain ⟨⟨h1, h2⟩, hrest⟩ := hv
    by_cases hr : 1000 ≤ now - s.lastRequestTime
    · -- the window had expired: reset, fresh window starting at now
      have hwn := waitIfNeeded_of_reset now2 hr hmax
      have hT : s.lastRequestTime + 1000 ≤ now := by omega
      have hs1 : (waitIfNeeded s now now2).1
          = ⟨1, now, s.maxRequestsPerSecond⟩ := by rw [hwn]
      have hentry : (⟨(waitIfNeeded s now now2).2,
            (waitIfNeeded s now now2).1.lastRequestTime⟩ : AcqEntry)
          = ⟨now, now⟩ := by rw [hwn]
      rw [hs1] at hrest
      have hnext := ih ⟨1, now, s.maxRequestsPerSecond⟩ w hmax hmax hrest
      have hb2 : (runRateLimiter (⟨1, now, s.maxRequestsPerSecond⟩ : RateLimiter)
            rest).2.countP (fun e => decide (e.windowStart = w))
          ≤ (if w = now then s.maxRequestsPerSecond - 1
              else s.maxRequestsPerSecond) := hnext.1
      have hm2 : ∀ e ∈ (runRateLimiter
            (⟨1, now, s.maxRequestsPerSecond⟩ : RateLimiter) rest).2,
          now ≤ e.windowStart := hnext.2
      rw [runRateLimiter_cons, hentry, hs1]
      constructor
      · rw [List.countP_cons]
        by_cases hwT : w = now
        · have hp : (decide ((⟨now, now⟩ : AcqEntry).windowStart = w)) = true := by
            simp [hwT]
          rw [hp, if_neg (show ¬ w = s.lastRequestTime by omega)]
          rw [if_pos hwT] at hb2
          simp only [if_true]
          omega
        · have hp : (decide ((⟨now, now⟩ : AcqEntry).windowStart = w)) = false := by
            simp
            omega
          rw [hp]
          simp only [Bool.false_eq_true, if_false, Nat.add_zero]
          by_cases hws : w = s.lastRequestTime
          · rw [if_pos hws]
            have hzero : (runRateLimiter
                  (⟨1, now, s.maxRequestsPerSecond⟩ : RateLimiter)
                  rest).2.countP (fun e => decide (e.windowStart = w)) = 0 := by
              rw [List.countP_eq_zero]
              intro e he
              have hge := hm2 e he
              simp
              omega
            rw [hzero]
            exact Nat.zero_le _
          · rw [if_neg hws]
            rw [if_neg hwT] at hb2
            exact hb2
      · intro e he
        rcases List.mem_cons.1 he with he0 | herest
        · rw [he0]
          show s.lastRequestTime ≤ now
          omega
        · have hge := hm2 e herest
          omega
    · by_cases hw : s.maxRequestsPerSecond ≤ s.requestsThisSecond
      · -- counter at ceiling: sleep, fresh window starting at now2
        have hwn := waitIfNeeded_of_wait now2 hr hw
        rw [resetIfNewWindow_of_same hr] at h2
        have hT : s.lastRequestTime + 1000 ≤ now2 := by
          rcases h2 with hlt | hok
          · omega
          · exact hok
        have hs1 : (waitIfNeeded s now now2).1
            = ⟨1, now2, s.maxRequestsPerSecond⟩ := by rw [hwn]
        have hentry : (⟨(waitIfNeeded s now now2).2,
              (waitIfNeeded s now now2).1.lastRequestTime⟩ : AcqEntry)
            = ⟨now2, now2⟩ := by rw [hwn]
        rw [hs1] at hrest
        have hnext := ih ⟨1, now2, s.maxRequestsPerSecond⟩ w hmax hmax hrest
        have hb2 : (runRateLimiter (⟨1, now2, s.maxRequestsPerSecond⟩ : RateLimiter)
              rest).2.countP (fun e => decide (e.windowStart = w))
            ≤ (if w = now2 then s.maxRequestsPerSecond - 1
                else s.maxRequestsPerSecond) := hnext.1
        have hm2 : ∀ e ∈ (runRateLimiter
              (⟨1, now2, s.maxRequestsPerSecond⟩ : RateLimiter) rest).2,
            now2 ≤ e.windowStart := hnext.2
        rw [runRateLimiter_cons, hentry, hs1]
        constructor
        · rw [List.countP_cons]
          by_cases hwT : w = now2
          · have hp : (decide ((⟨now2, now2⟩ : AcqEntry).windowStart = w)) = true := by
              simp [hwT]
            rw [hp, if_neg (show ¬ w = s.lastRequestTime by omega)]
            rw [if_pos hwT] at hb2
            simp only [if_true]
            omega
          · have hp : (decide ((⟨now2, now2⟩ : AcqEntry).windowStart = w)) = false := by
              simp
              omega
            rw [hp]
            simp only [Bool.false_eq_true, if_false, Nat.add_zero]
            by_cases hws : w = s.lastRequestTime
            · rw [if_pos hws]
              have hzero : (runRateLimiter
                    (⟨1, now2, s.maxRequestsPerSecond⟩ : RateLimiter)
                    rest).2.countP (fun e => decide (e.windowStart = w)) = 0 := by
                rw [List.countP_eq_zero]
                intro e he
                have hge := hm2 e he
                simp
                omega
              rw [hzero]
              exact Nat.zero_le _
            · rw [if_neg hws]
              rw [if_neg hwT] at hb2
              exact hb2
        · intro e he
          rcases List.mem_cons.1 he with he0 | herest
          · rw [he0]
            show s.lastRequestTime ≤ now2
            omega
          · have hge := hm2 e herest
            omega
      · -- room in the current window: count one more completion into it
        have hwn := waitIfNeeded_of_free now2 hr hw
        have hs1 : (waitIfNeeded s now now2).1
            = ⟨s.requestsThisSecond + 1, s.lastRequestTime,
                s.maxRequestsPerSecond⟩ := by rw [hwn]
        have hentry : (⟨(waitIfNeeded s now now2).2,
              (waitIfNeeded s now now2).1.lastRequestTime⟩ : AcqEntry)
            = ⟨now, s.lastRequestTime⟩ := by rw [hwn]
        rw [hs1] at hrest
        have hnext := ih ⟨s.requestsThisSecond + 1, s.lastRequestTime,
            s.maxRequestsPerSecond⟩ w hmax
            (show s.requestsThisSecond + 1 ≤ s.maxRequestsPerSecond by omega) hrest
        have hb2 : (runRateLimiter (⟨s.requestsThisSecond + 1, s.lastRequestTime,
              s.maxRequestsPerSecond⟩ : RateLimiter)
              rest).2.countP (fun e => decide (e.windowStart = w))
            ≤ (if w = s.lastRequestTime
                then s.maxRequestsPerSecond - (s.requestsThisSecond + 1)
                else s.maxRequestsPerSecond) := hnext.1
        have hm2 : ∀ e ∈ (runRateLimiter
              (⟨s.requestsThisSecond + 1, s.lastRequestTime,
                s.maxRequestsPerSecond⟩ : RateLimiter) rest).2,
            s.lastRequestTime ≤ e.windowStart := hnext.2
        rw [runRateLimiter_cons, hentry, hs1]
        constructor
        · rw [List.countP_cons]
          by_cases hws : w = s.lastRequestTime
          · have hp : (decide ((⟨now, s.lastRequestTime⟩ : AcqEntry).windowStart = w))
                = true := by simp [hws]
            rw [hp, if_pos hws]
            rw [if_pos hws] at hb2
            simp only [if_true]
            omega
          · have hp : (decide ((⟨now, s.lastRequestTime⟩ : AcqEntry).windowStart = w))
                = false := by
              simp
              omega
            rw [hp, if_neg hws]
            rw [if_neg hws] at hb2
            simp only [Bool.false_eq_true, if_false, Nat.add_zero]
            exact hb2
        · intro e he
          rcases List.mem_cons.1 he with he0 | herest
          · rw [he0]
          · exact hm2 e herest

/-- A sane schedule of 160 acquisitions against the exported limiter
(ceiling 80, constructed at time 0): eighty whose waitIfNeeded bodies
observe the clock at 999 ms (late in the first fixed window), one that
hits the ceiling at 999 ms and sleeps the remaining 1 ms, and
seventy-nine more that observe the clock at 1000 ms, right after the
reset. -/
def slidingBurstCalls : List (Nat × Nat) :=
  List.replicate 80 (999, 999) ++ (999, 1000) :: List.replicate 79 (1000, 1000)

set_option maxRecDepth 10000 in
/-- C4 counterexample: the sliding-window rate ceiling fails on the
code.  The limiter only bounds its own fixed windows, so on the
schedule above all 160 acquisitions complete inside the single rolling
one-second interval [999, 1999) (eighty at 999 ms and eighty at
1000 ms), twice the ceiling of 80. -/
theorem claim_C4_sliding_window_counterexample :
    validFrom (metMuseumRateLimiter 0) slidingBurstCalls = true ∧
    (runRateLimiter (metMuseumRateLimiter 0) slidingBurstCalls).2.countP
        (fun e => decide (999 ≤ e.completedAt) && decide (e.completedAt < 1999))
      = 160 := by
  constructor
  · decide
  · decide

/-- C4 (amended): Fixed-window rate ceiling.  The bound claimed for
every sliding one-second interval does not hold (see the
counterexample); what the limiter guarantees is that on every sane
schedule, at most maxRequestsPerSecond acquisitions are counted into
any single fixed window of the limiter (a maximal stretch of
acquisitions sharing one value of lastRequestTime, identified here by
that window-start value). -/
theorem claim_C4_fixed_window_ceiling (constructedAt m : Nat)
    (calls : List (Nat × Nat)) (w : Nat) (hm : 1 ≤ m)
    (hv : validFrom ⟨0, constructedAt, m⟩ calls = true) :
    (runRateLimiter ⟨0, constructedAt, m⟩ calls).2.countP
        (fun e => decide (e.windowStart = w)) ≤ m := by
  have h := runRateLimiter_window_bound calls ⟨0, constructedAt, m⟩ w hm
    (Nat.zero_le m) hv
  rcases h with ⟨hb, _⟩
  by_cases hc : w = constructedAt
  · have hb2 : (runRateLimiter (⟨0, constructedAt, m⟩ : RateLimiter) calls).2.countP
        (fun e => decide (e.windowStart = w)) ≤ m - 0 := by
      rw [if_pos hc] at hb
      exact hb
    omega
  · rw [if_neg hc] at hb
    exact hb

/-- Witness for the amended C4, on the exported limiter parameters and
the counterexample schedule: no fixed window of the run holds more
than 80 completions (here the window starting at 0). -/
theorem claim_C4_fixed_window_ceiling_witness :
    (runRateLimiter (⟨0, 0, 80⟩ : RateLimiter) slidingBurstCalls).2.countP
        (fun e => decide (e.windowStart = 0)) ≤ 80 :=
  claim_C4_fixed_window_ceiling 0 80 slidingBurstCalls 0 (by decide) (by decide)

/- ============================================================= -/
/- Search tokens and the shared results state                     -/
/- (src/ui/met-explorer/mcp-app.ts, loadSearchPage lines 279-352) -/
/- ============================================================= -/

/-- A card in the shared results state, tagged with the search token of
the loadSearchPage invocation that produced it. -/
structure TaggedCard where
  token : Nat
  objectID : Nat
deriving DecidableEq, Repr

/-- The part of the shared AppState that loadSearchPage invocations
race on: the latest issued search token, the visible results, and the
token each in-flight invocation captured at its start. -/
structure SearchSharedState where
  latestSearchToken : Nat
  results : List TaggedCard
  captured : List (Nat × Nat)
deriving DecidableEq, Repr

/-- The atomic steps of a loadSearchPage invocation (identified by an
invocation id), as separated by its await points:
start is the synchronous prefix (token = ++state.latestSearchToken;
state.results = []); applyCards is the write after hydrateObjects
resolves, guarded by token !== state.latestSearchToken; applyEmptyPage
is the write state.results = [] taken when the page fetch reports no
objectIDs (this branch has no token guard in the source); applyError
is the catch branch, which checks the token and in either case leaves
results and the token counter unchanged. -/
inductive SearchEvent where
  | start (id : Nat)
  | applyCards (id : Nat) (objectIDs : List Nat)
  | applyEmptyPage (id : Nat)
  | applyError (id : Nat)
deriving DecidableEq, Repr

/-- The token an in-flight invocation captured when it started. -/
def lookupToken (captured : List (Nat × Nat)) (id : Nat) : Option Nat :=
  (captured.find? (fun p => p.1 == id)).map (fun p => p.2)

/-- One interleaving step of the loadSearchPage state machine. -/
def searchStep (s : SearchSharedState) : SearchEvent → SearchSharedState
  | .start id =>
    { latestSearchToken := s.latestSearchToken + 1,
      results := [],
      captured := (id, s.latestSearchToken + 1) :: s.captured }
  | .applyCards id objectIDs =>
    match lookupToken s.captured id with
    | some token =>
      if token = s.latestSearchToken then
        { s with results := objectIDs.map (fun oid => ⟨token, oid⟩) }
      else s
    | none => s
  | .applyEmptyPage id =>
    match lookupToken s.captured id with
    | some _ => { s with results := [] }
    | none => s
  | .applyError _ => s

/-- Run an interleaving of loadSearchPage invocations from the initial
state (latestSearchToken = 0, no results). -/
def runSearchEvents (events : List SearchEvent) : SearchSharedState :=
  events.foldl searchStep ⟨0, [], []⟩

theorem searchStep_results_current (s : SearchSharedState) (e : SearchEvent)
    (h : ∀ c ∈ s.results, c.token = s.latestSearchToken) :
    ∀ c ∈ (searchStep s e).results,
      c.token = (searchStep s e).latestSearchToken := by
  cases e with
  | start id =>
    intro c hc
    simp [searchStep] at hc
  | applyCards id objectIDs =>
    cases hl : lookupToken s.captured id with
    | none => simpa [searchStep, hl] using h
    | some token =>
      by_cases ht : token = s.latestSearchToken
      · intro c hc
        simp only [searchStep, hl, ht, if_pos] at hc ⊢
        rw [List.mem_map] at hc
        obtain ⟨oid, _, hco⟩ := hc
        rw [← hco]
      · simpa [searchStep, hl, ht] using h
  | applyEmptyPage id =>
    cases hl : lookupToken s.captured id with
    | none => simpa [searchStep, hl] using h
    | some token =>
      intro c hc
      simp [searchStep, hl] at hc
  | applyError id => simpa [searchStep] using h

theorem searchFold_results_current (events : List SearchEvent) :
    ∀ s : SearchSharedState,
      (∀ c ∈ s.results, c.token = s.latestSearchToken) →
      ∀ c ∈ (events.foldl searchStep s).results,
        c.token = (events.foldl searchStep s).latestSearchToken := by
  induction events with
  | nil => intro s h; exact h
  | cons e rest ih =>
    intro s h
    rw [List.foldl_cons]
    exact ih (searchStep s e) (searchStep_results_current s e h)

/-- C1: Stale-result suppression.  Over every interleaving of
loadSearchPage invocations, state.results only ever holds cards
produced under the latest issued search token: a new start atomically
bumps the token and clears the results, and the hydration-result write
is guarded, so an invocation whose captured token is no longer the
latest leaves the shared state exactly unchanged when its hydration
completes (its cards are silently discarded); in particular, when T2
starts before T1 applies its hydration results, the visible cards are
only ever those produced under T2 (or a later token). -/
theorem claim_C1_stale_result_suppression :
    (∀ (events : List SearchEvent) (c : TaggedCard),
        c ∈ (runSearchEvents events).results →
        c.token = (runSearchEvents events).latestSearchToken)
    ∧ (∀ (s : SearchSharedState) (id : Nat) (objectIDs : List Nat) (token : Nat),
        lookupToken s.captured id = some token →
        token ≠ s.latestSearchToken →
        searchStep s (SearchEvent.applyCards id objectIDs) = s) := by
  constructor
  · intro events c hc
    exact searchFold_results_current events ⟨0, [], []⟩
      (by intro c hc; simp at hc) c hc
  · intro s id objectIDs token hl ht
    simp [searchStep, hl, ht]

/-- Witness for C1: in the trace where invocation 0 starts (token 1),
invocation 1 starts (token 2) and then applies cards for objects 3 and
4, every visible card carries token 2, the latest; and a concrete
stale applyCards (captured token 1, latest 2) is a no-op on the shared
state. -/
theorem claim_C1_stale_result_suppression_witness :
    ((⟨2, 3⟩ : TaggedCard) ∈ (runSearchEvents
        [SearchEvent.start 0, SearchEvent.start 1,
          SearchEvent.applyCards 1 [3, 4]]).results
      ∧ (⟨2, 3⟩ : TaggedCard).token = (runSearchEvents
        [SearchEvent.start 0, SearchEvent.start 1,
          SearchEvent.applyCards 1 [3, 4]]).latestSearchToken)
    ∧ (lookupToken [(1, 2), (0, 1)] 0 = some 1
      ∧ (1 : Nat) ≠ 2
      ∧ searchStep ⟨2, [], [(1, 2), (0, 1)]⟩ (SearchEvent.applyCards 0 [9])
        = ⟨2, [], [(1, 2), (0, 1)]⟩) :=
  ⟨⟨by decide,
    claim_C1_stale_result_suppression.1
      [SearchEvent.start 0, SearchEvent.start 1, SearchEvent.applyCards 1 [3, 4]]
      ⟨2, 3⟩ (by decide)⟩,
   by decide, by decide,
   claim_C1_stale_result_suppression.2 ⟨2, [], [(1, 2), (0, 1)]⟩ 0 [9] 1
     (by decide) (by decide)⟩

/- ============================================================= -/
/- The two generation-token streams                               -/
/- (src/ui/met-explorer/mcp-app.ts, runSearch lines 232-267 and   -/
/-  loadObjectDetails lines 465-501)                              -/
/- ============================================================= -/

/-- The two token counters held in AppState. -/
structure UiTokenState where
  latestSearchToken : Nat
  latestDetailsToken : Nat
deriving DecidableEq, Repr

/-- Token effect of runSearch: it increments latestDetailsToken up
front (source comment: invalidate in-flight details requests so stale
responses cannot change selection) and then calls loadSearchPage,
which increments latestSearchToken. -/
def runSearchTokens (s : UiTokenState) : UiTokenState :=
  ⟨s.latestSearchToken + 1, s.latestDetailsToken + 1⟩

/-- Token effect of loadObjectDetails: it increments only
latestDetailsToken. -/
def loadObjectDetailsTokens (s : UiTokenState) : UiTokenState :=
  ⟨s.latestSearchToken, s.latestDetailsToken + 1⟩

/-- Token effect of goToPage (loadSearchPage without runSearch):
it increments only latestSearchToken. -/
def loadSearchPageTokens (s : UiTokenState) : UiTokenState :=
  ⟨s.latestSearchToken + 1, s.latestDetailsToken⟩

/-- C8 counterexample: the token streams are not independent in the
claimed sense.  A detail-view load captures latestDetailsToken = 1;
a subsequent runSearch bumps the details counter to 2, so the
in-flight detail load is invalidated: starting a new search does
cancel an in-flight detail-view load, refuting the claim at this
concrete state. -/
theorem claim_C8_independent_streams_counterexample :
    (runSearchTokens (loadObjectDetailsTokens ⟨0, 0⟩)).latestDetailsToken
      ≠ (loadObjectDetailsTokens ⟨0, 0⟩).latestDetailsToken := by
  decide

/-- C8 (amended): Search results and detail-view selection use two
separate counters, and the independence holds in one direction only:
loading a detail view never changes the search stream (so switching
detail view does not cancel an in-flight search), and paginating
within a search never changes the details stream; but runSearch
deliberately increments both counters, so starting a new search does
invalidate an in-flight detail-view load. -/
theorem claim_C8_one_way_independence (s : UiTokenState) :
    (loadObjectDetailsTokens s).latestSearchToken = s.latestSearchToken
    ∧ (loadSearchPageTokens s).latestDetailsToken = s.latestDetailsToken
    ∧ (runSearchTokens s).latestSearchToken = s.latestSearchToken + 1
    ∧ (runSearchTokens s).latestDetailsToken = s.latestDetailsToken + 1 :=
  ⟨rfl, rfl, rfl, rfl⟩

/- ============================================================= -/
/- API client error classification                                -/
/- (src/api/MetMuseumApiClient.ts)                                -/
/- ============================================================= -/

/-- The MetMuseumApiError value: message, optional HTTP status, and
the isUserFriendly flag that marks text as safe to show verbatim. -/
structure MetMuseumApiError where
  message : String
  status : Option Nat
  isUserFriendly : Bool
deriving DecidableEq, Repr

/-- createUnexpectedResponseError: the error thrown when a response is
received but fails schema validation.  Its message is a fixed template
that depends only on the endpoint name, and it is flagged
user-friendly. -/
def createUnexpectedResponseError (endpointName : String) : MetMuseumApiError :=
  { message := "The Met Museum API returned an unexpected " ++ endpointName
      ++ " response. Please try again later.",
    status := none,
    isUserFriendly := true }

/-- MetMuseumApiClient.fetchAndParse: fetch the JSON (any fetch error
propagates), then validate it against the schema; on validation
failure throw createUnexpectedResponseError, otherwise return the
parsed value.  schemaParse stands for schema.safeParse: it returns
the parsed value or nothing, and the validation issue details are
never inspected. -/
def fetchAndParse {ResponseData ParsedValue : Type}
    (fetched : Except MetMuseumApiError ResponseData)
    (schemaParse : ResponseData → Option ParsedValue)
    (endpointName : String) : Except MetMuseumApiError ParsedValue :=
  match fetched with
  | .error e => .error e
  | .ok data =>
    match schemaParse data with
    | none => .error (createUnexpectedResponseError endpointName)
    | some v => .ok v

/-- C9: ShapeMismatch opacity.  Whenever a response is received
successfully but fails schema validation, fetchAndParse surfaces
exactly createUnexpectedResponseError for that endpoint: an error
flagged isUserFriendly whose message is the fixed generic template
depending only on the endpoint name, so raw validation internals (the
response data or schema issue details) can never appear in the message
shown to end users. -/
theorem claim_C9_shape_mismatch_opacity {ResponseData ParsedValue : Type}
    (fetched : Except MetMuseumApiError ResponseData)
    (schemaParse : ResponseData → Option ParsedValue)
    (endpointName : String) (data : ResponseData)
    (hok : fetched = Except.ok data) (hfail : schemaParse data = none) :
    fetchAndParse fetched schemaParse endpointName
        = Except.error (createUnexpectedResponseError endpointName)
      ∧ (createUnexpectedResponseError endpointName).isUserFriendly = true
      ∧ (createUnexpectedResponseError endpointName).message
        = "The Met Museum API returned an unexpected " ++ endpointName
          ++ " response. Please try again later." := by
  subst hok
  refine ⟨?_, rfl, rfl⟩
  simp [fetchAndParse, hfail]

/-- Witness for C9 on a concrete failing parse of the object
endpoint. -/
theorem claim_C9_shape_mismatch_opacity_witness :
    fetchAndParse (Except.ok 0) (fun (_ : Nat) => (none : Option Nat)) "object"
        = Except.error (createUnexpectedResponseError "object")
      ∧ (createUnexpectedResponseError "object").isUserFriendly = true :=
  ⟨(claim_C9_shape_mismatch_opacity (Except.ok 0)
      (fun (_ : Nat) => (none : Option Nat)) "object" 0 rfl rfl).1,
    (claim_C9_shape_mismatch_opacity (Except.ok 0)
      (fun (_ : Nat) => (none : Option Nat)) "object" 0 rfl rfl).2.1⟩

/- ============================================================= -/
/- The results context publisher                                  -/
/- (src/ui/met-explorer/context-sync.ts)                          -/
/- ============================================================= -/

/-- The search request whose results are being published. -/
structure SearchRequest where
  q : String
  hasImages : Bool
  title : Bool
  departmentId : Option Nat
deriving DecidableEq, Repr

/-- The slice of AppState that syncSearchResultsToModelContext
reads. -/
structure SearchResultsContextSyncState where
  searchRequest : Option SearchRequest
  results : List ResultCard
  currentPage : Nat
  totalPages : Nat
  totalResults : Nat
  pageSize : Nat
  lastResultsContextSignature : Option String
deriving DecidableEq, Repr

/-- buildSearchResultsContextText: nothing to publish without a search
request or with no visible results; otherwise the canonical text block
(query line, page line, one line per visible result, and the fixed
instruction lines). -/
def buildSearchResultsContextText
    (st : SearchResultsContextSyncState) : Option String :=
  match st.searchRequest with
  | none => none
  | some req =>
    if st.results.isEmpty then none
    else
      some (String.intercalate "\n"
        [ "Met Explorer results for Query: \"" ++ req.q ++ "\"",
          "Page: " ++ toString st.currentPage ++ "/"
            ++ toString (Nat.max st.totalPages 1)
            ++ " (" ++ toString st.totalResults ++ " total results)",
          "",
          String.intercalate "\n" (st.results.map (fun r =>
            "- " ++ toString r.objectID ++ " | " ++ r.title ++ " | "
              ++ r.artistDisplayName)),
          "",
          "These results are already available — no need to call search-museum-objects for this data.",
          "In your response, state explicitly that you can see the current visible results.",
          "Say this naturally in your own words (no fixed template sentence required).",
          "You can curate recommendations directly from these visible results and cite titles/object IDs from this list." ])

/-- The structured payload sent alongside the text (the constant
source and type tags of the source are omitted; the result items keep
the card fields the source projects). -/
structure SearchResultsContextPayload where
  query : String
  hasImages : Bool
  titleOnly : Bool
  departmentId : Option Nat
  page : Nat
  pageSize : Nat
  totalPages : Nat
  totalResults : Nat
  results : List ResultCard
deriving DecidableEq, Repr

/-- buildSearchResultsStructuredPayload: same guard as the text
builder, then the structured snapshot of the visible page. -/
def buildSearchResultsStructuredPayload
    (st : SearchResultsContextSyncState) :
    Option SearchResultsContextPayload :=
  match st.searchRequest with
  | none => none
  | some req =>
    if st.results.isEmpty then none
    else
      some { query := req.q, hasImages := req.hasImages,
             titleOnly := req.title, departmentId := req.departmentId,
             page := st.currentPage, pageSize := st.pageSize,
             totalPages := Nat.max st.totalPages 1,
             totalResults := st.totalResults, results := st.results }

/-- getSearchResultsContextSignature: query, page and canonical text,
joined with bars. -/
def getSearchResultsContextSignature
    (st : SearchResultsContextSyncState) (text : String) : String :=
  (match st.searchRequest with
    | some req => req.q
    | none => "") ++ "|" ++ toString st.currentPage ++ "|" ++ text

/-- The updateModelContext payload shapes tried in order. -/
inductive UpdateShape where
  | contentAndStructured
  | contentOnly
  | structuredOnly
deriving DecidableEq, Repr

/-- The host as the publisher observes it: whether window.openai with
a setWidgetState function exists and whether calling it succeeds
(some true), throws (some false) or is absent (none); and which
updateModelContext payload shapes the host accepts. -/
structure HostModel where
  widget : Option Bool
  accepts : UpdateShape → Bool

/-- trySyncSearchResultsContext: try content plus structured data,
then content only, then structured data only, stopping at the first
accepted shape.  Returns whether one was accepted, together with the
shapes attempted. -/
def trySyncSearchResultsContext (host : HostModel) : Bool × List UpdateShape :=
  if host.accepts UpdateShape.contentAndStructured then
    (true, [UpdateShape.contentAndStructured])
  else if host.accepts UpdateShape.contentOnly then
    (true, [UpdateShape.contentAndStructured, UpdateShape.contentOnly])
  else if host.accepts UpdateShape.structuredOnly then
    (true, [UpdateShape.contentAndStructured, UpdateShape.contentOnly,
      UpdateShape.structuredOnly])
  else
    (false, [UpdateShape.contentAndStructured, UpdateShape.contentOnly,
      UpdateShape.structuredOnly])

/-- What one call to syncSearchResultsToModelContext did: the
signature it returned, how many setWidgetState deliveries it
attempted, which updateModelContext shapes it attempted, and whether
it reported a soft warning. -/
structure SyncOutcome where
  signature : Option String
  widgetDeliveries : Nat
  modelContextAttempts : List UpdateShape
  warned : Bool
deriving Repr

/-- syncSearchResultsToModelContext: build the canonical text and the
structured payload (if either is missing, return the previous
signature untouched); if the computed signature equals the last
published one, skip as an idempotent no-op; otherwise deliver through
the preferred widget side channel when it exists (falling back to
updateModelContext when the setter throws, with a console warning),
or through the updateModelContext fallback chain; when everything is
rejected, keep the previous signature and only warn. -/
def syncSearchResultsToModelContext (host : HostModel)
    (st : SearchResultsContextSyncState) : SyncOutcome :=
  match buildSearchResultsContextText st,
      buildSearchResultsStructuredPayload st with
  | some text, some _ =>
    if some (getSearchResultsContextSignature st text)
        = st.lastResultsContextSignature then
      { signature := st.lastResultsContextSignature, widgetDeliveries := 0,
        modelContextAttempts := [], warned := false }
    else
      match host.widget with
      | some true =>
        { signature := some (getSearchResultsContextSignature st text),
          widgetDeliveries := 1, modelContextAttempts := [], warned := false }
      | some false =>
        if (trySyncSearchResultsContext host).1 then
          { signature := some (getSearchResultsContextSignature st text),
            widgetDeliveries := 1,
            modelContextAttempts := (trySyncSearchResultsContext host).2,
            warned := true }
        else
          { signature := st.lastResultsContextSignature,
            widgetDeliveries := 1,
            modelContextAttempts := (trySyncSearchResultsContext host).2,
            warned := true }
      | none =>
        if (trySyncSearchResultsContext host).1 then
          { signature := some (getSearchResultsContextSignature st text),
            widgetDeliveries := 0,
            modelContextAttempts := (trySyncSearchResultsContext host).2,
            warned := false }
        else
          { signature := st.lastResultsContextSignature,
            widgetDeliveries := 0,
            modelContextAttempts := (trySyncSearchResultsContext host).2,
            warned := true }
  | _, _ =>
    { signature := st.lastResultsContextSignature, widgetDeliveries := 0,
      modelContextAttempts := [], warned := false }

/-- A buildable text implies a present request, nonempty results, and
a buildable structured payload. -/
theorem buildText_some_elim (st : SearchResultsContextSyncState)
    (text : String) (htext : buildSearchResultsContextText st = some text) :
    ∃ req, st.searchRequest = some req ∧ st.results.isEmpty = false
      ∧ buildSearchResultsStructuredPayload st
        = some { query := req.q, hasImages := req.hasImages,
                 titleOnly := req.title, departmentId := req.departmentId,
                 page := st.currentPage, pageSize := st.pageSize,
                 totalPages := Nat.max st.totalPages 1,
                 totalResults := st.totalResults, results := st.results } := by
  cases hsr : st.searchRequest with
  | none =>
    simp [buildSearchResultsContextText, hsr] at htext
  | some req =>
    have hre : st.results.isEmpty = false := by
      by_cases hre : st.results.isEmpty
      · simp [buildSearchResultsContextText, hsr, hre] at htext
      · simpa using hre
    refine ⟨req, rfl, hre, ?_⟩
    simp [buildSearchResultsStructuredPayload, hsr, hre]

/-- C6: Idempotent publish.  From a state whose payload is buildable
and whose computed signature is new, against a host that accepts the
first delivery channel tried (the widget side channel, or the
content-plus-structured updateModelContext shape when no widget
exists): publishing returns the computed signature with exactly one
delivery attempt, and publishing again after the caller stores that
signature back (state.lastResultsContextSignature, as loadSearchPage
does) returns the same signature with no delivery attempt at all —
exactly one delivery attempt total across the two calls. -/
theorem claim_C6_idempotent_publish (host : HostModel)
    (st : SearchResultsContextSyncState) (text : String)
    (htext : buildSearchResultsContextText st = some text)
    (hfresh : st.lastResultsContextSignature
      ≠ some (getSearchResultsContextSignature st text))
    (hhost : host.widget = some true
      ∨ (host.widget = none
          ∧ host.accepts UpdateShape.contentAndStructured = true)) :
    (syncSearchResultsToModelContext host st).signature
        = some (getSearchResultsContextSignature st text)
      ∧ (syncSearchResultsToModelContext host st).widgetDeliveries
          + (syncSearchResultsToModelContext host st).modelContextAttempts.length
        = 1
      ∧ (syncSearchResultsToModelContext host
            { st with
            lastResultsContextSignature := (syncSearchResultsToModelContext host st).signature }).signature
        = (syncSearchResultsToModelContext host st).signature
      ∧ (syncSearchResultsToModelContext host
            { st with
            lastResultsContextSignature := (syncSearchResultsToModelContext host st).signature }).widgetDeliveries
          + (syncSearchResultsToModelContext host
            { st with
            lastResultsContextSignature := (syncSearchResultsToModelContext host st).signature }).modelContextAttempts.length
        = 0 := by
  obtain ⟨req, hreq, hres, hpay⟩ := buildText_some_elim st text htext
  have hcond : ¬ (some (getSearchResultsContextSignature st text)
      = st.lastResultsContextSignature) := fun h => hfresh h.symm
  -- first call: one delivery through the first channel, new signature
  have hout1 : syncSearchResultsToModelContext host st =
      { signature := some (getSearchResultsContextSignature st text),
        widgetDeliveries := if host.widget = some true then 1 else 0,
        modelContextAttempts := if host.widget = some true then []
          else [UpdateShape.contentAndStructured],
        warned := false } := by
    rcases hhost with hw | ⟨hw, hacc⟩
    · simp [syncSearchResultsToModelContext, htext, hpay, hw, hcond]
    · have htry : trySyncSearchResultsContext host
          = (true, [UpdateShape.contentAndStructured]) := by
        simp [trySyncSearchResultsContext, hacc]
      simp [syncSearchResultsToModelContext, htext, hpay, hw, hcond, htry]
  -- the second call sees the stored signature and is a no-op
  have htext2 : buildSearchResultsContextText
      { st with
            lastResultsContextSignature := some (getSearchResultsContextSignature st text) } = some text := htext
  have hpay2 : buildSearchResultsStructuredPayload
      { st with
            lastResultsContextSignature := some (getSearchResultsContextSignature st text) }
      = some { query := req.q, hasImages := req.hasImages,
               titleOnly := req.title, departmentId := req.departmentId,
               page := st.currentPage, pageSize := st.pageSize,
               totalPages := Nat.max st.totalPages 1,
               totalResults := st.totalResults, results := st.results } := hpay
  have hstale2 : (some (getSearchResultsContextSignature
        { st with
            lastResultsContextSignature := some (getSearchResultsContextSignature st text) } text)
      = ({ st with
            lastResultsContextSignature := some (getSearchResultsContextSignature st text) }
          : SearchResultsContextSyncState).lastResultsContextSignature) := rfl
  have hout2 : syncSearchResultsToModelContext host
      { st with
            lastResultsContextSignature := some (getSearchResultsContextSignature st text) } =
      { signature := some (getSearchResultsContextSignature st text),
        widgetDeliveries := 0, modelContextAttempts := [], warned := false } := by
    simp [syncSearchResultsToModelContext, htext2, hpay2, hstale2]
  refine ⟨?_, ?_, ?_, ?_⟩
  · rw [hout1]
  · rw [hout1]
    rcases hhost with hw | ⟨hw, _⟩ <;> simp [hw]
  · rw [hout1]
    show (syncSearchResultsToModelContext host
      { st with
            lastResultsContextSignature := some (getSearchResultsContextSignature st text) }).signature = _
    rw [hout2]
  · rw [hout1]
    show (syncSearchResultsToModelContext host
        { st with
            lastResultsContextSignature := some (getSearchResultsContextSignature st text) }).widgetDeliveries
      + (syncSearchResultsToModelContext host
        { st with
            lastResultsContextSignature := some (getSearchResultsContextSignature st text) }).modelContextAttempts.length
      = 0
    rw [hout2]
    rfl

/-- A concrete publishable state: a fresh search with one visible
result and nothing published yet. -/
def sampleSyncState : SearchResultsContextSyncState :=
  { searchRequest := some ⟨"sunflowers", true, false, none⟩,
    results := [⟨436524, "Sunflowers", "Vincent van Gogh", "European Paintings", ""⟩],
    currentPage := 1, totalPages := 3, totalResults := 25, pageSize := 10,
    lastResultsContextSignature := none }

/-- A host that exposes a working widget-state side channel. -/
def widgetHost : HostModel :=
  { widget := some true, accepts := fun _ => false }

set_option maxRecDepth 10000 in
/-- Witness for C6: against the widget host and the sample state, the
first publish performs exactly one delivery attempt and the second
(after the caller stores the returned signature) performs none and
returns the same signature. -/
theorem claim_C6_idempotent_publish_witness :
    ((syncSearchResultsToModelContext widgetHost sampleSyncState).widgetDeliveries
        + (syncSearchResultsToModelContext widgetHost
            sampleSyncState).modelContextAttempts.length
      = 1)
    ∧ (syncSearchResultsToModelContext widgetHost
        { sampleSyncState with
            lastResultsContextSignature :=
              (syncSearchResultsToModelContext widgetHost sampleSyncState).signature }).signature
      = (syncSearchResultsToModelContext widgetHost sampleSyncState).signature
    ∧ ((syncSearchResultsToModelContext widgetHost
        { sampleSyncState with
            lastResultsContextSignature :=
              (syncSearchResultsToModelContext widgetHost sampleSyncState).signature }).widgetDeliveries
      + (syncSearchResultsToModelContext widgetHost
        { sampleSyncState with
            lastResultsContextSignature :=
              (syncSearchResultsToModelContext widgetHost sampleSyncState).signature }).modelContextAttempts.length
      = 0) := by
  have h := claim_C6_idempotent_publish widgetHost sampleSyncState
    ((buildSearchResultsContextText sampleSyncState).getD "") rfl
    (by simp [sampleSyncState]) (Or.inl rfl)
  exact ⟨h.2.1, h.2.2.1, h.2.2.2⟩

/-- C7: Fallback exhaustion.  When the host rejects every delivery
strategy (the widget-state setter is absent or throws, and every
updateModelContext payload shape is rejected), the publish operation
returns the previous signature unchanged for every state; it is a
total function (no exception reaches the caller), and whenever it
actually attempted any delivery it reports only a soft warning. -/
theorem claim_C7_fallback_exhaustion (host : HostModel)
    (st : SearchResultsContextSyncState)
    (hwidget : host.widget = none ∨ host.widget = some false)
    (haccepts : ∀ shape, host.accepts shape = false) :
    (syncSearchResultsToModelContext host st).signature
        = st.lastResultsContextSignature
    ∧ (0 < (syncSearchResultsToModelContext host st).widgetDeliveries
          + (syncSearchResultsToModelContext host st).modelContextAttempts.length
        → (syncSearchResultsToModelContext host st).warned = true) := by
  have htry : trySyncSearchResultsContext host
      = (false, [UpdateShape.contentAndStructured, UpdateShape.contentOnly,
          UpdateShape.structuredOnly]) := by
    simp [trySyncSearchResultsContext, haccepts]
  cases htext : buildSearchResultsContextText st with
  | none =>
    constructor <;> simp [syncSearchResultsToModelContext, htext]
  | some text =>
    cases hpay : buildSearchResultsStructuredPayload st with
    | none =>
      constructor <;> simp [syncSearchResultsToModelContext, htext, hpay]
    | some payload =>
      by_cases hstale : some (getSearchResultsContextSignature st text)
          = st.lastResultsContextSignature
      · constructor <;>
          simp [syncSearchResultsToModelContext, htext, hpay, hstale]
      · rcases hwidget with hw | hw
        · constructor <;>
            simp [syncSearchResultsToModelContext, htext, hpay, hstale, hw, htry]
        · constructor <;>
            simp [syncSearchResultsToModelContext, htext, hpay, hstale, hw, htry]

/-- A host whose widget-state setter throws and which rejects every
updateModelContext payload shape. -/
def rejectingHost : HostModel :=
  { widget := some false, accepts := fun _ => false }

/-- Witness for C7: against the all-rejecting host and the sample
state, publish returns the previous signature (none) and reports the
failure as a warning. -/
theorem claim_C7_fallback_exhaustion_witness :
    (syncSearchResultsToModelContext rejectingHost sampleSyncState).signature
        = sampleSyncState.lastResultsContextSignature
    ∧ (0 < (syncSearchResultsToModelContext rejectingHost sampleSyncState).widgetDeliveries
          + (syncSearchResultsToModelContext rejectingHost
              sampleSyncState).modelContextAttempts.length
        → (syncSearchResultsToModelContext rejectingHost sampleSyncState).warned
          = true) :=
  claim_C7_fallback_exhaustion rejectingHost sampleSyncState
    (Or.inr rfl) (fun _ => rfl)

end MetMuseum
